import Mathlib

/-!
Verification of the diagnostic-aggregation and diff-position-mapping core of
the `emmett2020/linter` CI lint reporter.

Strings are modelled as lists of characters (`Str`), machine integers as
`Nat`/`Int` with explicit wrapping where it matters, external collaborators
(process execution, XML library, HTTP transport) as oracles or
already-structured data.  Every definition that has a counterpart in the C++
sources is translated from the source file named in its doc comment.
-/

namespace Linter

/-- Strings from the C++ sources, modelled as lists of characters. -/
abbrev Str := List Char

/-- Translation of `std::views::split(sep)` on a string, as used throughout
`src/src/tools/clang_tidy/base.cpp`: splitting on every occurrence of `sep`,
keeping empty parts, with a trailing separator contributing a final empty
part.  (For the empty input C++ yields no parts while this yields one empty
part; every use below only tests whether the part count equals a nonzero
number or iterates the parts, and the two conventions agree on all non-empty
inputs.) -/
def split_on (sep : Char) : Str → List Str
  | [] => [[]]
  | c :: cs =>
    if c = sep then
      [] :: split_on sep cs
    else
      match split_on sep cs with
      | [] => [[c]]
      | p :: ps => (c :: p) :: ps

/-- Modelled from the spec: the severity field is compared "left-trimmed"
(`trim_left` lives in `utils/util.h`, which is not among the provided
sources); it drops leading whitespace. -/
def trim_left (s : Str) : Str := s.dropWhile Char.isWhitespace

/-- Translation of `supported_serverity` from
`src/src/tools/clang_tidy/base.cpp:43`. -/
def supported_serverity : List Str := ["warning".data, "info".data, "error".data]

/-- Translation of `diagnostic_header` (fields as assigned in
`src/src/tools/clang_tidy/base.cpp:79-86`). -/
structure diagnostic_header where
  file_name : Str
  row_idx : Str
  col_idx : Str
  serverity : Str
  brief : Str
  diagnostic_type : Str
deriving DecidableEq, Repr

/-- Translation of a clang-tidy `diagnostic`: a parsed header plus the
accumulated multi-line `details` text (`base.cpp:153,159`). -/
structure diagnostic where
  header : diagnostic_header
  details : Str
deriving DecidableEq, Repr

/-- Translation of `parse_diagnostic_header` from
`src/src/tools/clang_tidy/base.cpp:47-87`: a line is a header iff it splits
into exactly five colon-separated fields, fields 2 and 3 are all digits, the
left-trimmed field 4 is a supported severity, and field 5 contains a `[`,
has length at least 3, and ends with `]`.  `brief` is the part of field 5
before the first `[` and `diagnostic_type` the rest (brackets included). -/
def parse_diagnostic_header (line : Str) : Option diagnostic_header :=
  match split_on ':' line with
  | [file_name, row_idx, col_idx, serverity_raw, diagnostic_type] =>
    if ¬ row_idx.all Char.isDigit then none
    else if ¬ col_idx.all Char.isDigit then none
    else if ¬ supported_serverity.contains (trim_left serverity_raw) then none
    else if ¬ diagnostic_type.contains '[' then none
    else if diagnostic_type.length < 3 then none
    else if diagnostic_type.getLast? ≠ some ']' then none
    else some { file_name := file_name
                row_idx := row_idx
                col_idx := col_idx
                serverity := trim_left serverity_raw
                brief := diagnostic_type.takeWhile (· ≠ '[')
                diagnostic_type := diagnostic_type.dropWhile (· ≠ '[') }
  | _ => none

/-- Claim-side transcription of the header grammar of the spec (section 4.1):
exactly five colon-separated fields, all-digit row and column fields, an
enumerated severity after left-trimming, and a field 5 that contains `[`,
ends with `]` and has length at least 3. -/
def header_grammar_matches (line : Str) : Bool :=
  match split_on ':' line with
  | [_, row_idx, col_idx, serverity_raw, diagnostic_type] =>
    row_idx.all Char.isDigit
      && col_idx.all Char.isDigit
      && supported_serverity.contains (trim_left serverity_raw)
      && diagnostic_type.contains '['
      && (diagnostic_type.getLast? == some ']')
      && decide (3 ≤ diagnostic_type.length)
  | _ => false

/-- Translation of `diags.back().details += line`
(`src/src/tools/clang_tidy/base.cpp:159`): append `line` to the `details`
field of the last diagnostic.  The C++ call site only runs it when at least
one diagnostic has been parsed, so the empty case is unreachable there. -/
def append_to_last : List diagnostic → Str → List diagnostic
  | [], _ => []
  | [d], line => [⟨d.header, d.details ++ line⟩]
  | d :: d' :: rest, line => d :: append_to_last (d' :: rest) line

/-- Translation of the loop body of `parse_stdout`
(`src/src/tools/clang_tidy/base.cpp:138-161`): each line that parses as a
header starts a fresh diagnostic (with empty details) and sets
`needs_details`; every other line is appended to the last diagnostic's
details once `needs_details` holds, and is dropped before that. -/
def parse_stdout_loop : List Str → List diagnostic → Bool → List diagnostic
  | [], diags, _ => diags
  | line :: rest, diags, needs_details =>
    match parse_diagnostic_header line with
    | some header_line => parse_stdout_loop rest (diags ++ [⟨header_line, []⟩]) true
    | none =>
      if needs_details then parse_stdout_loop rest (append_to_last diags line) needs_details
      else parse_stdout_loop rest diags needs_details

/-- Translation of `parse_stdout` from
`src/src/tools/clang_tidy/base.cpp:134-165`: split the raw stdout on
newlines and run the accumulation loop starting with no diagnostics and
`needs_details = false`. -/
def parse_stdout (std_out : Str) : List diagnostic :=
  parse_stdout_loop (split_on '\n' std_out) [] false

/-- Whether a line is a detail line, i.e. does not match the header
grammar. -/
def is_detail_line (line : Str) : Bool := (parse_diagnostic_header line).isNone

/-- Specification-side restatement of the details-accumulation contract
(spec section 4.1, amended): lines before the first header are discarded;
a header line starts a diagnostic whose `details` is the verbatim
concatenation (no separator) of the non-header lines that follow it, up to
the next header line; diagnostics appear in input order. -/
def claim_parse_stdout : List Str → List diagnostic
  | [] => []
  | line :: rest =>
    match parse_diagnostic_header line with
    | none => claim_parse_stdout rest
    | some h =>
      ⟨h, (rest.takeWhile is_detail_line).flatten⟩
        :: claim_parse_stdout (rest.dropWhile is_detail_line)
termination_by lines => lines.length
decreasing_by
  all_goals simp only [List.length_cons]
  all_goals first
    | omega
    | exact Nat.lt_succ_of_le (List.dropWhile_sublist _).length_le

/-- Concrete clang-tidy stdout used to probe the details-joining behavior:
one header line followed by the two detail lines `ab` and `cd`. -/
def details_probe_input : Str := "a.cpp:1:2:warning:msg[tag]\nab\ncd".data

/-- Translation of `git::diff_hunk` as consumed by the position mapper
(`src/src/main.cpp:149-151,205`): the new-side start line and line count of
one hunk.  The diff-line count a hunk contributes (`num_lines` in the C++
loop) is carried alongside each hunk, since it comes from the external
libgit2 patch object. -/
structure diff_hunk where
  new_start : Nat
  new_lines : Nat
deriving DecidableEq, Repr

/-- Translation of `is_in_hunk` from `src/src/main.cpp:149-151`: the row is
in the hunk iff `new_start ≤ row ≤ new_start + new_lines` (both bounds
inclusive); the column argument is accepted but unused. -/
def is_in_hunk (hunk : diff_hunk) (row : Nat) (col : Nat) : Bool :=
  row ≥ hunk.new_start && row ≤ hunk.new_start + hunk.new_lines

/-- Translation of the hunk-scanning loop of `make_pr_review_comment`
(`src/src/main.cpp:202-215`, identically `base_clang_tidy::
make_pr_review_comment` in `src/src/tools/clang_tidy/base.cpp:323-336`) for
one diagnostic at absolute row `row`: walk the hunks in order with a running
offset `pos`; a non-containing hunk advances `pos` by its diff-line count; a
containing hunk emits the review-comment position `pos + row - new_start + 1`
(and the loop continues without advancing `pos`). -/
def review_positions (row col : Nat) : List (diff_hunk × Nat) → Nat → List Nat
  | [], _ => []
  | (hunk, num_lines) :: rest, pos =>
    if ¬ is_in_hunk hunk row col then review_positions row col rest (pos + num_lines)
    else (pos + row - hunk.new_start + 1) :: review_positions row col rest pos

/-- Specification-side restatement of the Position Mapper contract (spec
section 4.4): a containing hunk yields position `row - new_start + 1` plus
the diff-line counts of all preceding non-containing hunks (each preceding
non-containing hunk shifts every later position by its line count); hunks
that do not contain the row yield nothing. -/
def claim_positions (row col : Nat) : List (diff_hunk × Nat) → List Nat
  | [] => []
  | (hunk, num_lines) :: rest =>
    if is_in_hunk hunk row col then
      (row - hunk.new_start + 1) :: claim_positions row col rest
    else
      (claim_positions row col rest).map (· + num_lines)

/-- Hunk list of the worked spec example: `new_start 10, new_lines 5` with 5
diff lines, then `new_start 30, new_lines 3` with 3 diff lines. -/
def example_hunks : List (diff_hunk × Nat) := [(⟨10, 5⟩, 5), (⟨30, 3⟩, 3)]

/-- Translation of `clang_format::replacement_type`
(`src/src/tools/clang_format.cpp:106-112`): byte offset, replaced length and
replacement text of one edit; a missing attribute leaves the value-initialized
zero in place and absent text means deletion (empty `data`). -/
structure replacement_type where
  offset : Int
  length : Int
  data : Str
deriving DecidableEq, Repr

/-- Abstraction of the tinyxml2 document handed to
`parse_replacements_xml`: the XML library is an external collaborator, so the
raw text is modelled as an already-structured tree.  `malformed` stands for a
text `doc.Parse` rejects, `empty_doc` for a well-formed document with no
children, `no_replacements_root` for one whose children lack a
`replacements` element, and `replacements_root nodes` for a `replacements`
element whose `replacement` children carry the given attributes and text. -/
inductive xml_document where
  | malformed
  | empty_doc
  | no_replacements_root
  | replacements_root (nodes : List replacement_type)
deriving DecidableEq, Repr

/-- Translation of `parse_replacements_xml` from
`src/src/tools/clang_format.cpp:80-120`: a parse failure, a childless
document, or a missing `replacements` root is a hard error (C++ `throw_if`,
modelled as `Except.error`); otherwise the `replacement` children are
collected in document order, and an empty child list is a valid result. -/
def parse_replacements_xml (doc : xml_document) : Except Str (List replacement_type) :=
  match doc with
  | .malformed => .error "Parse replacements xml failed since: parse error".data
  | .empty_doc => .error "Parse replacements xml failed since no children in replacements xml".data
  | .no_replacements_root =>
    .error "Parse replacements xml failed since no child names replacements".data
  | .replacements_root nodes => .ok nodes

/-- Translation of `shell::result` as used in
`src/src/tools/clang_format.cpp:190-210`: exit code, stdout and stderr of one
external tool invocation. -/
structure shell_result where
  exit_code : Int
  std_out : Str
  std_err : Str
deriving DecidableEq, Repr

/-- Translation of `clang_format::result` as built in
`src/src/tools/clang_format.cpp:193-213`; the optional
`formatted_source_code` is `none` when the field is never assigned. -/
structure clang_format_result where
  pass : Bool
  file : Str
  replacements : List replacement_type
  origin_stderr : Str
  formatted_source_code : Option Str
deriving DecidableEq, Repr

/-- Translation of `clang_format::apply_on_single_file` from
`src/src/tools/clang_format.cpp:178-214`.  The first invocation's outcome is
`xml_res` with its stdout abstracted to the structured `xml_doc`; the second
invocation's outcome (only consulted when the caller wants the formatted
source) is `code_res`.  A nonzero first exit yields a failed result without
parsing; a parse error propagates as `Except.error`; otherwise
`pass = replacements.isEmpty`, and a nonzero second exit replaces the result
with a failed one. -/
def apply_on_single_file (needs_formatted_source_code : Bool) (file : Str)
    (xml_res : shell_result) (xml_doc : xml_document) (code_res : shell_result) :
    Except Str clang_format_result :=
  if xml_res.exit_code ≠ 0 then
    .ok { pass := false, file := file, replacements := [],
          origin_stderr := xml_res.std_err, formatted_source_code := none }
  else
    match parse_replacements_xml xml_doc with
    | .error e => .error e
    | .ok replacements =>
      let res : clang_format_result :=
        { pass := replacements.isEmpty, file := file, replacements := replacements,
          origin_stderr := xml_res.std_err, formatted_source_code := none }
      if needs_formatted_source_code then
        if code_res.exit_code ≠ 0 then
          .ok { pass := false, file := file, replacements := [],
                origin_stderr := code_res.std_err, formatted_source_code := none }
        else .ok { res with formatted_source_code := some code_res.std_out }
      else .ok res

/-- Pass flag of an `apply_on_single_file` outcome, when one was produced. -/
def result_pass : Except Str clang_format_result → Option Bool
  | .ok r => some r.pass
  | .error _ => none

/-- Translation of `clang_tidy::result` as consumed by `main.cpp` (pass flag
and parsed diagnostics; the raw stdout/stderr of the run are irrelevant to
the claims and omitted). -/
structure clang_tidy_result where
  pass : Bool
  file : Str
  diags : List diagnostic
deriving DecidableEq, Repr

/-- Translation of `cpp_linter_result` from `src/src/main.cpp:63-77`: the
per-tool aggregation state.  The `unordered_map`s keyed by file path are
modelled as association lists in insertion order (`patches` belongs to the
external git collaborator and is consumed only through `review_positions`
above). -/
structure cpp_linter_result where
  clang_tidy_ignored_files : List Str := []
  clang_tidy_passed : List (Str × clang_tidy_result) := []
  clang_tidy_failed : List (Str × clang_tidy_result) := []
  clang_tidy_fastly_exit : Bool := false
  clang_format_ignored_files : List Str := []
  clang_format_passed : List (Str × clang_format_result) := []
  clang_format_failed : List (Str × clang_format_result) := []
  clang_format_fastly_exit : Bool := false
deriving DecidableEq, Repr

/-- Translation of `apply_clang_format_on_files` from
`src/src/main.cpp:253-282`.  `needs_check` is the `file_needs_to_be_checked`
regex oracle, `result_of` the external `clang_format::apply_on_single_file`
invocation.  Note the fast-exit branch of the C++ source assigns
`linter_result.clang_tidy_fastly_exit = true` (not the clang-format flag)
before returning; this is translated verbatim. -/
def apply_clang_format_on_files (needs_check : Str → Bool)
    (result_of : Str → clang_format_result) (enable_fastly_exit : Bool) :
    List Str → cpp_linter_result → cpp_linter_result
  | [], r => r
  | file :: rest, r =>
    if ¬ needs_check file then
      apply_clang_format_on_files needs_check result_of enable_fastly_exit rest
        { r with clang_format_ignored_files := r.clang_format_ignored_files ++ [file] }
    else
      let result := result_of file
      if result.pass then
        apply_clang_format_on_files needs_check result_of enable_fastly_exit rest
          { r with clang_format_passed := r.clang_format_passed ++ [(file, result)] }
      else
        let r2 := { r with clang_format_failed := r.clang_format_failed ++ [(file, result)] }
        if enable_fastly_exit then { r2 with clang_tidy_fastly_exit := true }
        else apply_clang_format_on_files needs_check result_of enable_fastly_exit rest r2

/-- Translation of `apply_clang_tidy_on_files` from
`src/src/main.cpp:284-312`: same scan loop for clang-tidy, whose fast-exit
branch sets the clang-tidy flag. -/
def apply_clang_tidy_on_files (needs_check : Str → Bool)
    (result_of : Str → clang_tidy_result) (enable_fastly_exit : Bool) :
    List Str → cpp_linter_result → cpp_linter_result
  | [], r => r
  | file :: rest, r =>
    if ¬ needs_check file then
      apply_clang_tidy_on_files needs_check result_of enable_fastly_exit rest
        { r with clang_tidy_ignored_files := r.clang_tidy_ignored_files ++ [file] }
    else
      let result := result_of file
      if result.pass then
        apply_clang_tidy_on_files needs_check result_of enable_fastly_exit rest
          { r with clang_tidy_passed := r.clang_tidy_passed ++ [(file, result)] }
      else
        let r2 := { r with clang_tidy_failed := r.clang_tidy_failed ++ [(file, result)] }
        if enable_fastly_exit then { r2 with clang_tidy_fastly_exit := true }
        else apply_clang_tidy_on_files needs_check result_of enable_fastly_exit rest r2

/-- Translation of the exit-status computation at the end of `main`
(`src/src/main.cpp:386-391`): `all_passes` starts true and is and-ed with
emptiness of the clang-tidy failed set only when clang-tidy is enabled; the
process returns 0 on `all_passes` and 1 otherwise. -/
def main_exit_code (enable_clang_tidy : Bool) (r : cpp_linter_result) : Nat :=
  let all_passes := if enable_clang_tidy then r.clang_tidy_failed.isEmpty else true
  if all_passes then 0 else 1

/-- Title string of the brief result (`src/src/main.cpp:126`). -/
def brief_title : Str := "# The cpp-linter Result".data

/-- Pass hint of the brief result (`src/src/main.cpp:127`). -/
def brief_hint_pass : Str := ":rocket: All checks on all file passed.".data

/-- Fail hint of the brief result (`src/src/main.cpp:128`). -/
def brief_hint_fail : Str := ":warning: Some files didn't pass the cpp-linter checks\n".data

/-- Translation of `make_clang_format_result_str` from
`src/src/main.cpp:90-101`: a collapsible block naming the clang-format
binary and the failed count, then one `- file` bullet per failed file. -/
def make_clang_format_result_str (clang_format_binary : Str)
    (clang_format_failed : List (Str × clang_format_result)) : Str :=
  "<details>\n<summary>".data ++ clang_format_binary ++ " reports:<strong>".data
    ++ Nat.toDigits 10 clang_format_failed.length ++ " fails</strong></summary>\n".data
    ++ (clang_format_failed.map (fun nf => "- ".data ++ nf.1 ++ "\n".data)).flatten
    ++ "\n</details>".data

/-- Translation of `make_clang_tidy_result_str` from
`src/src/main.cpp:103-123`: a collapsible block naming the clang-tidy binary
and the failed count, then one formatted bullet per diagnostic of every
failed file. -/
def make_clang_tidy_result_str (clang_tidy_binary : Str)
    (clang_tidy_failed : List (Str × clang_tidy_result)) : Str :=
  "<details>\n<summary>".data ++ clang_tidy_binary ++ " reports:<strong>".data
    ++ Nat.toDigits 10 clang_tidy_failed.length ++ " fails</strong></summary>\n".data
    ++ (clang_tidy_failed.map (fun nf => (nf.2.diags.map (fun diag =>
          "- **".data ++ diag.header.file_name ++ ":".data ++ diag.header.row_idx
            ++ ":".data ++ diag.header.col_idx ++ ":** ".data ++ diag.header.serverity
            ++ ": [".data ++ diag.header.diagnostic_type ++ "]\n  > ".data
            ++ diag.header.brief ++ "\n".data)).flatten)).flatten

/-- Translation of `make_brief_result` from `src/src/main.cpp:125-146`: the
fixed pass banner when both failed sets are empty; otherwise the fail banner
followed by the clang-format detail block (when clang-format failed) and the
clang-tidy detail block (when clang-tidy failed). -/
def make_brief_result (clang_format_binary clang_tidy_binary : Str)
    (result : cpp_linter_result) : Str :=
  let clang_tidy_passed := result.clang_tidy_failed.isEmpty
  let clang_format_passed := result.clang_format_failed.isEmpty
  let all_check_passes := clang_tidy_passed && clang_format_passed
  if all_check_passes then brief_title ++ brief_hint_pass
  else
    let details :=
      (if ¬ clang_format_passed then
        make_clang_format_result_str clang_format_binary result.clang_format_failed
       else [])
      ++ (if ¬ clang_tidy_passed then
            make_clang_tidy_result_str clang_tidy_binary result.clang_tidy_failed
          else [])
    brief_title ++ brief_hint_fail ++ details

/-- Fixed bot identity `our_name` from `src/src/github/api.h:27`. -/
def our_name : Str := "emmett2020".data

/-- Abstraction of one fetched issue-comment JSON object: `user_login` is
`none` when the `/user/login` JSON pointer is absent and carries the login
string otherwise. -/
structure fetched_comment where
  user_login : Option Str
deriving DecidableEq, Repr

/-- Translation of `github_api_client::is_our_comment` from
`src/src/github/api.h:120-127`: a comment without author-login metadata is
treated as ours; otherwise the login is compared with `our_name`. -/
def is_our_comment (comment : fetched_comment) : Bool :=
  match comment.user_login with
  | none => true
  | some name => name == our_name

/-- Sentinel held in the `std::uint32_t comment_id_ = -1` member of
`github_api_client` (`src/src/github/api.h:233`): `-1` converted to
`uint32_t`, i.e. `2^32 - 1`. -/
def no_comment_id : Nat := 4294967295

/-- State of a `github_api_client` relevant to the upsert protocol: the held
32-bit comment id (always `< 2^32`). -/
structure github_api_client_state where
  comment_id : Nat
deriving DecidableEq, Repr

/-- Freshly constructed client: `comment_id_` is the sentinel. -/
def initial_client : github_api_client_state := ⟨no_comment_id⟩

/-- Which HTTP call an upsert issued. -/
inductive comment_action where
  | create
  | update
deriving DecidableEq, Repr

/-- Translation of `github_api_client::add_comment`
(`src/src/github/api.h:168-187`): the id of the comment created by the POST
is stored into the `uint32_t` member, i.e. reduced modulo `2^32` (nlohmann's
`get_to` performs an unchecked integral conversion). -/
def add_comment (st : github_api_client_state) (returned_id : Nat) :
    github_api_client_state :=
  { st with comment_id := returned_id % 4294967296 }

/-- Translation of `github_api_client::add_or_update_comment` from
`src/src/github/api.h:207-213`: create (storing the returned id) when
`comment_id_` is still `-1`, update (state unchanged) otherwise. -/
def add_or_update_comment (st : github_api_client_state) (returned_id : Nat) :
    comment_action × github_api_client_state :=
  if st.comment_id = no_comment_id then (.create, add_comment st returned_id)
  else (.update, st)

/-- Failing clang-format result used to probe the fast-exit branch: one
replacement, so the file does not pass. -/
def probe_format_result (file : Str) : clang_format_result :=
  { pass := false, file := file, replacements := [⟨0, 1, []⟩],
    origin_stderr := [], formatted_source_code := none }

/-- Aggregation state with exactly one clang-format failure, used as the
witness input for the brief banner. -/
def sample_format_failed : cpp_linter_result :=
  { clang_format_failed := [("a.cpp".data, probe_format_result "a.cpp".data)] }

/-- Modelled from the spec: the polymorphic per-tool reporter consumed by
`base_reporter.cpp` (the reporter interface `get_brief_result` and the
per-tool reporter implementations live in headers not among the provided
sources).  Per the spec's reporting contract a reporter exposes its
failed-files set together with its passed/ignored counts and its rendered
per-tool step-summary block. -/
structure reporter_base where
  failed_files : List Str
  successed : Nat
  ignored : Nat
  step_summary : Str
deriving DecidableEq, Repr

/-- Modelled from the spec: the `get_brief_result` member of the reporter
interface, returning the `[is_passed, successed, failed, ignored]` tuple
destructured in `src/src/tools/base_reporter.cpp:40,87`; a tool `is_passed`
exactly when its failed-files set is empty (spec sections 4.5 and 4.6). -/
def get_brief_result (r : reporter_base) : Bool × Nat × Nat × Nat :=
  (r.failed_files.isEmpty, r.successed, r.failed_files.length, r.ignored)

/-- Translation of `all_passed` from
`src/src/tools/base_reporter.cpp:38-46`, verbatim including its inverted
test: the loop returns false as soon as a reporter's `is_passed` is true,
and returns true only when no reporter passed. -/
def all_passed : List reporter_base → Bool
  | [] => true
  | reporter :: rest =>
    if (get_brief_result reporter).1 then false
    else all_passed rest

/-- Translation of the banner rendered by `write_to_github_step_summary`
(`src/src/tools/base_reporter.cpp:48-68`; the fstream write is the external
side effect): the fixed pass banner when `all_passed` holds, otherwise the
fixed fail banner followed by every reporter's step-summary block with a
newline appended — all reporters, not only the failing ones. -/
def step_summary_output (reporters : List reporter_base) : Str :=
  if all_passed reporters then brief_title ++ brief_hint_pass
  else
    brief_title ++ brief_hint_fail
      ++ (reporters.map (fun reporter => reporter.step_summary ++ "\n".data)).flatten

/-- Reporter of a tool that passed every file: empty failed set. -/
def sample_passing_reporter : reporter_base :=
  { failed_files := [], successed := 3, ignored := 0,
    step_summary := "format block".data }

/-- Reporter of a tool with one failed file. -/
def sample_failing_reporter : reporter_base :=
  { failed_files := ["a.cpp".data], successed := 2, ignored := 0,
    step_summary := "tidy block".data }

example : header_grammar_matches "a.cpp:1:2:warning:msg[tag]".data = true := by decide

example : (parse_diagnostic_header "a.cpp:1:2:warning:msg[tag]".data).isSome = true := by decide

example : header_grammar_matches "a.cpp:1:2:warning:msg tag".data = false := by decide

example : parse_diagnostic_header "a.cpp:1:2:warning:msg[tag]".data
    = some ⟨"a.cpp".data, "1".data, "2".data, "warning".data, "msg".data, "[tag]".data⟩ := by
  decide

theorem parse_header_isSome_eq_grammar (line : Str) :
    (parse_diagnostic_header line).isSome = header_grammar_matches line := by
  unfold parse_diagnostic_header header_grammar_matches
  rcases hs : split_on ':' line with _ | ⟨f, _ | ⟨r, _ | ⟨c, _ | ⟨sv, _ | ⟨dt, _ | ⟨x, rest⟩⟩⟩⟩⟩⟩ <;>
    simp only [hs] <;> try rfl
  split_ifs with h1 h2 h3 h4 h5 h6 <;> simp_all [Nat.not_lt]

theorem parse_header_brief_tag (line : Str) (h : diagnostic_header)
    (hp : parse_diagnostic_header line = some h) :
    ∃ f r c sv dt, split_on ':' line = [f, r, c, sv, dt]
      ∧ h.brief = dt.takeWhile (· ≠ '[')
      ∧ h.diagnostic_type = dt.dropWhile (· ≠ '[') := by
  unfold parse_diagnostic_header at hp
  rcases hs : split_on ':' line with _ | ⟨f, _ | ⟨r, _ | ⟨c, _ | ⟨sv, _ | ⟨dt, _ | ⟨x, rest⟩⟩⟩⟩⟩⟩ <;>
    simp only [hs] at hp
  all_goals try exact Option.noConfusion hp
  split_ifs at hp <;> try exact Option.noConfusion hp
  injection hp with hp
  subst hp
  exact ⟨f, r, c, sv, dt, rfl, rfl, rfl⟩

theorem append_to_last_snoc (ds : List diagnostic) (d : diagnostic) (line : Str) :
    append_to_last (ds ++ [d]) line = ds ++ [⟨d.header, d.details ++ line⟩] := by
  induction ds with
  | nil => rfl
  | cons a ds ih =>
    cases ds with
    | nil => rfl
    | cons b ds => simpa [append_to_last] using ih

theorem parse_stdout_loop_detail (lines : List Str) :
    ∀ (ds : List diagnostic) (h : diagnostic_header) (acc : Str),
      parse_stdout_loop lines (ds ++ [⟨h, acc⟩]) true
        = ds ++ ⟨h, acc ++ (lines.takeWhile is_detail_line).flatten⟩
            :: claim_parse_stdout (lines.dropWhile is_detail_line) := by
  induction lines with
  | nil =>
    intro ds h acc
    simp [parse_stdout_loop, claim_parse_stdout]
  | cons line rest ih =>
    intro ds h acc
    rcases hp : parse_diagnostic_header line with _ | h'
    · have hd : is_detail_line line = true := by simp [is_detail_line, hp]
      simp only [parse_stdout_loop, hp, if_pos rfl, append_to_last_snoc]
      rw [ih ds h (acc ++ line)]
      simp [List.takeWhile_cons, List.dropWhile_cons, hd]
    · have hd : is_detail_line line = false := by simp [is_detail_line, hp]
      have hih := ih (ds ++ [(⟨h, acc⟩ : diagnostic)]) h' []
      simp only [parse_stdout_loop, hp]
      rw [hih]
      simp [claim_parse_stdout, List.takeWhile_cons, List.dropWhile_cons, hd, hp]

theorem parse_stdout_loop_eq_claim (lines : List Str) :
    parse_stdout_loop lines [] false = claim_parse_stdout lines := by
  induction lines with
  | nil => simp [parse_stdout_loop, claim_parse_stdout]
  | cons line rest ih =>
    rcases hp : parse_diagnostic_header line with _ | h
    · simp only [parse_stdout_loop, hp, if_neg (by simp : ¬ false = true)]
      rw [ih, claim_parse_stdout]
      simp only [hp]
    · have hih := parse_stdout_loop_detail rest [] h []
      simp only [parse_stdout_loop, hp]
      rw [hih]
      simp [claim_parse_stdout, hp]

example : (parse_stdout details_probe_input).map (fun d => d.details) = ["abcd".data] := by decide

theorem is_in_hunk_le {hunk : diff_hunk} {row col : Nat}
    (h : is_in_hunk hunk row col = true) : hunk.new_start ≤ row := by
  have := (Bool.and_eq_true _ _).mp h
  exact Nat.le_of_lt_succ (Nat.lt_succ_of_le (by simpa using this.1))

theorem review_positions_shift (row col : Nat) (hunks : List (diff_hunk × Nat)) :
    ∀ pos : Nat, review_positions row col hunks pos
      = (claim_positions row col hunks).map (· + pos) := by
  induction hunks with
  | nil => intro pos; rfl
  | cons p rest ih =>
    intro pos
    obtain ⟨hunk, num_lines⟩ := p
    by_cases hin : is_in_hunk hunk row col = true
    · rw [review_positions, if_neg (by simp [hin]), claim_positions, if_pos hin]
      rw [ih pos]
      have hle : hunk.new_start ≤ row := is_in_hunk_le hin
      simp only [List.map_cons]
      congr 1
      omega
    · rw [review_positions, if_pos (by simpa using hin), claim_positions,
          if_neg (by simpa using hin)]
      rw [ih (pos + num_lines), List.map_map]
      congr 1
      funext x
      simp only [Function.comp_apply]
      omega

example : review_positions 12 1 example_hunks 0 = [3] := by decide

example : review_positions 31 1 example_hunks 0 = [7] := by decide

example : review_positions 20 1 example_hunks 0 = [] := by decide

theorem claim_positions_eq_nil (row col : Nat) (hunks : List (diff_hunk × Nat))
    (h : ∀ p ∈ hunks, is_in_hunk p.1 row col = false) :
    claim_positions row col hunks = [] := by
  induction hunks with
  | nil => rfl
  | cons p rest ih =>
    obtain ⟨hunk, num_lines⟩ := p
    rw [claim_positions, if_neg (by simp [h (hunk, num_lines) (by simp)])]
    rw [ih (fun q hq => h q (List.mem_cons_of_mem _ hq))]
    rfl

/-- Claim C1: scanning the hunks in order with a running offset starting at
0, a hunk containing the diagnostic's row produces the review-comment
position `pos + row - new_start + 1` where `pos` is the sum of the diff-line
counts of the preceding non-containing hunks; if no hunk contains the row no
comment is produced; and on the worked example hunks, row 12 maps to
position 3, row 31 to position 7, and row 20 to no comment. -/
theorem position_mapper_spec :
    (∀ row col hunks, review_positions row col hunks 0 = claim_positions row col hunks)
    ∧ (∀ row col hunks, (∀ p ∈ hunks, is_in_hunk p.1 row col = false) →
        review_positions row col hunks 0 = [])
    ∧ review_positions 12 1 example_hunks 0 = [3]
    ∧ review_positions 31 1 example_hunks 0 = [7]
    ∧ review_positions 20 1 example_hunks 0 = [] := by
  refine ⟨?_, ?_, by decide, by decide, by decide⟩
  · intro row col hunks
    rw [review_positions_shift]
    simp
  · intro row col hunks h
    rw [review_positions_shift, claim_positions_eq_nil row col hunks h]
    rfl

/-- Witness for `position_mapper_spec` at the worked example: row 20 lies in
no hunk and produces no comment. -/
theorem position_mapper_spec_witness : review_positions 20 1 example_hunks 0 = [] :=
  position_mapper_spec.2.1 20 1 example_hunks (by decide)

/-- Claim C3: a line yields a diagnostic header iff it splits into exactly
five colon-separated fields with all-digit fields 2 and 3, an enumerated
left-trimmed severity in field 4, and a field 5 containing `[`, ending in
`]`, of length at least 3; and on a match the brief is the part of field 5
before the `[` while the tag is the bracketed suffix. -/
theorem diagnostic_header_grammar (line : Str) :
    ((parse_diagnostic_header line).isSome = header_grammar_matches line)
    ∧ (∀ h, parse_diagnostic_header line = some h →
        ∃ f r c sv dt, split_on ':' line = [f, r, c, sv, dt]
          ∧ h.brief = dt.takeWhile (· ≠ '[')
          ∧ h.diagnostic_type = dt.dropWhile (· ≠ '[')) :=
  ⟨parse_header_isSome_eq_grammar line, fun h hp => parse_header_brief_tag line h hp⟩

/-- Witness for `diagnostic_header_grammar` on the concrete header line
`a.cpp:1:2:warning:msg[tag]`. -/
theorem diagnostic_header_grammar_witness :
    ∃ f r c sv dt, split_on ':' "a.cpp:1:2:warning:msg[tag]".data = [f, r, c, sv, dt]
      ∧ ("msg".data : Str) = dt.takeWhile (· ≠ '[')
      ∧ ("[tag]".data : Str) = dt.dropWhile (· ≠ '[') :=
  (diagnostic_header_grammar "a.cpp:1:2:warning:msg[tag]".data).2
    ⟨"a.cpp".data, "1".data, "2".data, "warning".data, "msg".data, "[tag]".data⟩ (by decide)

/-- Claim C4: the hunk membership test accepts a row iff
`new_start ≤ row ≤ new_start + new_lines`, with the upper bound inclusive;
in particular the row exactly at `new_start + new_lines` is inside. -/
theorem hunk_membership_inclusive (hunk : diff_hunk) (row col : Nat) :
    (is_in_hunk hunk row col = true
      ↔ hunk.new_start ≤ row ∧ row ≤ hunk.new_start + hunk.new_lines)
    ∧ is_in_hunk hunk (hunk.new_start + hunk.new_lines) col = true := by
  constructor
  · simp [is_in_hunk]
  · simp [is_in_hunk]

/-- Claim C5 (amended): detail lines are appended to the most recent
diagnostic verbatim but directly concatenated (no newline inserted between
them); lines before the first header are discarded; diagnostics appear in
input order.  `claim_parse_stdout` states this contract directly on the
newline-split line list. -/
theorem details_accumulation (std_out : Str) :
    parse_stdout std_out = claim_parse_stdout (split_on '\n' std_out) :=
  parse_stdout_loop_eq_claim _

/-- Counterexample to claim C5 as stated: on a header followed by the detail
lines `ab` and `cd` the accumulated details are `abcd`, not the
newline-joined `ab\ncd`. -/
theorem details_not_newline_joined :
    (parse_stdout details_probe_input).map (fun d => d.details) = ["abcd".data]
    ∧ ("abcd".data : Str) ≠ "ab\ncd".data := by decide

/-- Claim C10: the header parser accepts a line whose row field is the empty
string, because the all-digit check is vacuously true on an empty field: on
`a.cpp::3:warning:msg[tag]` it produces a header whose `row_idx` is empty. -/
theorem empty_row_field_accepted :
    parse_diagnostic_header "a.cpp::3:warning:msg[tag]".data
      = some { file_name := "a.cpp".data, row_idx := [], col_idx := "3".data,
               serverity := "warning".data, brief := "msg".data,
               diagnostic_type := "[tag]".data } := by decide

/-- Claim C2 is violated by the code: running the clang-format scan with
fast exit enabled on a single failing file sets the clang-tidy fast-exit
flag and leaves the clang-format fast-exit flag false (the fast-exit branch
of `apply_clang_format_on_files`, `src/src/main.cpp:276-280`, assigns
`clang_tidy_fastly_exit`), while the clang-tidy report sets are untouched. -/
theorem clang_format_fast_exit_sets_tidy_flag :
    (apply_clang_format_on_files (fun _ => true) probe_format_result true
        ["a.cpp".data] {}).clang_tidy_fastly_exit = true
    ∧ (apply_clang_format_on_files (fun _ => true) probe_format_result true
        ["a.cpp".data] {}).clang_format_fastly_exit = false
    ∧ (apply_clang_format_on_files (fun _ => true) probe_format_result true
        ["a.cpp".data] {}).clang_format_failed
        = [("a.cpp".data, probe_format_result "a.cpp".data)]
    ∧ (apply_clang_format_on_files (fun _ => true) probe_format_result true
        ["a.cpp".data] {}).clang_tidy_passed = []
    ∧ (apply_clang_format_on_files (fun _ => true) probe_format_result true
        ["a.cpp".data] {}).clang_tidy_failed = []
    ∧ (apply_clang_format_on_files (fun _ => true) probe_format_result true
        ["a.cpp".data] {}).clang_tidy_ignored_files = [] := by
  refine ⟨rfl, rfl, rfl, rfl, rfl, rfl⟩

/-- Claim C6: when the replacements-xml invocation exits 0 and its output
parses, the result passes iff the parsed replacement list is empty (provided
the optional second invocation is not requested or succeeds); an empty
`replacements` root parses to the empty list and yields a passing result;
and a nonzero exit of the second invocation, or of the first, forces
`pass = false`. -/
theorem style_check_pass_policy (needs : Bool) (file : Str) (xml_res : shell_result)
    (doc : xml_document) (reps : List replacement_type) (code_res : shell_result) :
    (xml_res.exit_code = 0 → parse_replacements_xml doc = .ok reps →
      (needs = false ∨ code_res.exit_code = 0) →
      result_pass (apply_on_single_file needs file xml_res doc code_res)
        = some reps.isEmpty)
    ∧ parse_replacements_xml (.replacements_root []) = .ok []
    ∧ (xml_res.exit_code = 0 →
        apply_on_single_file false file xml_res (.replacements_root []) code_res
          = .ok { pass := true, file := file, replacements := [],
                  origin_stderr := xml_res.std_err, formatted_source_code := none })
    ∧ (xml_res.exit_code = 0 → parse_replacements_xml doc = .ok reps →
        code_res.exit_code ≠ 0 →
        result_pass (apply_on_single_file true file xml_res doc code_res) = some false)
    ∧ (xml_res.exit_code ≠ 0 →
        result_pass (apply_on_single_file needs file xml_res doc code_res) = some false) := by
  refine ⟨?_, rfl, ?_, ?_, ?_⟩
  · intro h0 hp hor
    rw [apply_on_single_file, if_neg (by simp [h0]), hp]
    rcases hor with hn | hc
    · subst hn
      simp [result_pass]
    · cases needs <;> simp [result_pass, hc]
  · intro h0
    rw [apply_on_single_file, if_neg (by simp [h0])]
    rfl
  · intro h0 hp hc
    rw [apply_on_single_file, if_neg (by simp [h0]), hp]
    simp [result_pass, hc]
  · intro h0
    rw [apply_on_single_file, if_pos h0]
    rfl

/-- Witness for `style_check_pass_policy` at concrete invocations: a
passing single-invocation run on an empty replacement list, the
empty-root round trip, a failing second invocation, and a failing first
invocation. -/
theorem style_check_pass_policy_witness :
    result_pass (apply_on_single_file false "a.cpp".data ⟨0, [], []⟩
        (.replacements_root []) ⟨0, [], []⟩) = some true
    ∧ apply_on_single_file false "a.cpp".data ⟨0, [], []⟩
        (.replacements_root []) ⟨0, [], []⟩
        = .ok { pass := true, file := "a.cpp".data, replacements := [],
                origin_stderr := [], formatted_source_code := none }
    ∧ result_pass (apply_on_single_file true "a.cpp".data ⟨0, [], []⟩
        (.replacements_root []) ⟨1, [], []⟩) = some false
    ∧ result_pass (apply_on_single_file false "a.cpp".data ⟨1, [], []⟩
        (.replacements_root []) ⟨0, [], []⟩) = some false :=
  ⟨(style_check_pass_policy false "a.cpp".data ⟨0, [], []⟩ (.replacements_root [])
      [] ⟨0, [], []⟩).1 rfl rfl (Or.inl rfl),
   (style_check_pass_policy false "a.cpp".data ⟨0, [], []⟩ (.replacements_root [])
      [] ⟨0, [], []⟩).2.2.1 rfl,
   (style_check_pass_policy true "a.cpp".data ⟨0, [], []⟩ (.replacements_root [])
      [] ⟨1, [], []⟩).2.2.2.1 rfl rfl (by decide),
   (style_check_pass_policy false "a.cpp".data ⟨1, [], []⟩ (.replacements_root [])
      [] ⟨0, [], []⟩).2.2.2.2 (by decide)⟩

/-- Claim C7: the process exit status is failing (1) iff clang-tidy is
enabled and its failed set is non-empty; the clang-format failed set never
influences the exit status. -/
theorem exit_status_asymmetry (enable_clang_tidy : Bool) (r : cpp_linter_result) :
    (main_exit_code enable_clang_tidy r = 1
      ↔ enable_clang_tidy = true ∧ r.clang_tidy_failed ≠ [])
    ∧ (∀ fmt_failed, main_exit_code enable_clang_tidy
        { r with clang_format_failed := fmt_failed }
        = main_exit_code enable_clang_tidy r) := by
  constructor
  · unfold main_exit_code
    cases enable_clang_tidy <;>
      rcases hf : r.clang_tidy_failed with _ | ⟨a, l⟩ <;> simp [hf]
  · intro fmt_failed
    rfl

theorem make_brief_result_of_fail (clang_format_binary clang_tidy_binary : Str)
    (r : cpp_linter_result)
    (h : r.clang_format_failed ≠ [] ∨ r.clang_tidy_failed ≠ []) :
    make_brief_result clang_format_binary clang_tidy_binary r
      = brief_title ++ brief_hint_fail
        ++ (if r.clang_format_failed = [] then []
            else make_clang_format_result_str clang_format_binary r.clang_format_failed)
        ++ (if r.clang_tidy_failed = [] then []
            else make_clang_tidy_result_str clang_tidy_binary r.clang_tidy_failed) := by
  unfold make_brief_result
  rcases hf : r.clang_format_failed with _ | ⟨a, l⟩ <;>
    rcases ht : r.clang_tidy_failed with _ | ⟨b, m⟩ <;>
    simp_all

/-- Banner property of the `main.cpp` renderer `make_brief_result`
(`src/src/main.cpp:125-146`): its output is exactly the fixed pass banner iff
both failed sets are empty, and otherwise the fixed fail banner followed by
the detail blocks of exactly the tools whose failed sets are non-empty
(clang-format's first, then clang-tidy's).  The parallel reporter-based
renderer of `base_reporter.cpp` does not satisfy this property; see the
theorems about `all_passed` and `step_summary_output`. -/
theorem brief_banner (clang_format_binary clang_tidy_binary : Str)
    (r : cpp_linter_result) :
    (make_brief_result clang_format_binary clang_tidy_binary r
        = brief_title ++ brief_hint_pass
      ↔ r.clang_format_failed = [] ∧ r.clang_tidy_failed = [])
    ∧ (r.clang_format_failed ≠ [] ∨ r.clang_tidy_failed ≠ [] →
        make_brief_result clang_format_binary clang_tidy_binary r
          = brief_title ++ brief_hint_fail
            ++ (if r.clang_format_failed = [] then []
                else make_clang_format_result_str clang_format_binary r.clang_format_failed)
            ++ (if r.clang_tidy_failed = [] then []
                else make_clang_tidy_result_str clang_tidy_binary r.clang_tidy_failed)) := by
  constructor
  · constructor
    · intro heq
      by_contra hne
      have hor : r.clang_format_failed ≠ [] ∨ r.clang_tidy_failed ≠ [] := by
        by_cases h1 : r.clang_format_failed = []
        · exact Or.inr (fun h2 => hne ⟨h1, h2⟩)
        · exact Or.inl h1
      rw [make_brief_result_of_fail clang_format_binary clang_tidy_binary r hor] at heq
      have hlen := congrArg List.length heq
      simp only [List.length_append] at hlen
      have hp : brief_hint_pass.length = 39 := by decide
      have hfa : brief_hint_fail.length = 55 := by decide
      omega
    · intro h
      unfold make_brief_result
      simp [h.1, h.2]
  · exact make_brief_result_of_fail clang_format_binary clang_tidy_binary r

/-- Witness for `brief_banner`: with one clang-format failure and no
clang-tidy failure the brief result is the fail banner followed by the
clang-format block only. -/
theorem brief_banner_witness :
    make_brief_result "clang-format".data "clang-tidy".data sample_format_failed
      = brief_title ++ brief_hint_fail
        ++ (if sample_format_failed.clang_format_failed = [] then []
            else make_clang_format_result_str "clang-format".data
                   sample_format_failed.clang_format_failed)
        ++ (if sample_format_failed.clang_tidy_failed = [] then []
            else make_clang_tidy_result_str "clang-tidy".data
                   sample_format_failed.clang_tidy_failed) :=
  (brief_banner "clang-format".data "clang-tidy".data sample_format_failed).2
    (Or.inl (by decide))

/-- Claim C8 is violated by the cited reporter aggregation code:
`all_passed` (`src/src/tools/base_reporter.cpp:38-46`) returns false as soon
as a reporter's `is_passed` is true — the test is inverted against the
function's own name — so with two reporters whose failed-files sets are both
empty the rendered banner is the fail banner with both reporters' blocks
appended instead of the fixed pass banner, while two reporters that both
failed yield the pass banner; and the fail path appends every reporter's
block, including that of a tool whose failed set is empty. -/
theorem step_summary_banner_inverted :
    all_passed [sample_passing_reporter, sample_passing_reporter] = false
    ∧ step_summary_output [sample_passing_reporter, sample_passing_reporter]
        = brief_title ++ brief_hint_fail
          ++ (sample_passing_reporter.step_summary ++ "\n".data)
          ++ (sample_passing_reporter.step_summary ++ "\n".data)
    ∧ step_summary_output [sample_passing_reporter, sample_passing_reporter]
        ≠ brief_title ++ brief_hint_pass
    ∧ all_passed [sample_failing_reporter, sample_failing_reporter] = true
    ∧ step_summary_output [sample_failing_reporter, sample_failing_reporter]
        = brief_title ++ brief_hint_pass
    ∧ step_summary_output [sample_passing_reporter, sample_failing_reporter]
        = brief_title ++ brief_hint_fail
          ++ (sample_passing_reporter.step_summary ++ "\n".data)
          ++ (sample_failing_reporter.step_summary ++ "\n".data) := by decide

/-- Counterexample to claim C9 as stated: when the create call returns the
id `4294967295` (which is `2^32 - 1`, the `uint32_t` encoding of the `-1`
sentinel), the stored id is indistinguishable from the no-id state and a
second upsert in the same run issues a second create. -/
theorem upsert_sentinel_collision :
    (add_or_update_comment initial_client 4294967295).1 = comment_action.create
    ∧ (add_or_update_comment
        (add_or_update_comment initial_client 4294967295).2 4294967295).1
      = comment_action.create := by decide

/-- Claim C9 (amended): a fetched comment is the bot's iff it lacks
author-login metadata or its login equals the fixed identity; an upsert
issues a create exactly when the held id is the `2^32 - 1` sentinel, storing
the created id reduced modulo `2^32`, and otherwise issues an update leaving
the state unchanged; hence a second upsert never creates a second comment
provided the id returned by the create is not congruent to `2^32 - 1`
modulo `2^32`. -/
theorem bot_comment_upsert (c : fetched_comment) (st : github_api_client_state)
    (id id2 : Nat) :
    (is_our_comment c = true ↔ c.user_login = none ∨ c.user_login = some our_name)
    ∧ ((add_or_update_comment st id).1 = comment_action.create
        ↔ st.comment_id = no_comment_id)
    ∧ (st.comment_id = no_comment_id →
        (add_or_update_comment st id).2.comment_id = id % 4294967296)
    ∧ (st.comment_id ≠ no_comment_id → add_or_update_comment st id = (.update, st))
    ∧ (id % 4294967296 ≠ no_comment_id →
        (add_or_update_comment (add_or_update_comment initial_client id).2 id2).1
          = comment_action.update) := by
  refine ⟨?_, ?_, ?_, ?_, ?_⟩
  · rcases c with ⟨_ | name⟩ <;> simp [is_our_comment]
  · unfold add_or_update_comment
    by_cases h : st.comment_id = no_comment_id <;> simp [h]
  · intro h
    simp [add_or_update_comment, add_comment, h]
  · intro h
    simp [add_or_update_comment, h]
  · intro h
    simp [add_or_update_comment, add_comment, initial_client, h]

/-- Witness for `bot_comment_upsert` at concrete inputs: an authorless
comment is the bot's, a fresh client's upsert stores the returned id 7, a
client holding id 5 updates in place, and a second upsert after a create
that returned 7 is an update. -/
theorem bot_comment_upsert_witness :
    is_our_comment ⟨none⟩ = true
    ∧ (add_or_update_comment ⟨no_comment_id⟩ 7).2.comment_id = 7 % 4294967296
    ∧ add_or_update_comment ⟨5⟩ 7 = (comment_action.update, ⟨5⟩)
    ∧ (add_or_update_comment (add_or_update_comment initial_client 7).2 9).1
        = comment_action.update :=
  ⟨(bot_comment_upsert ⟨none⟩ ⟨5⟩ 7 9).1.mpr (Or.inl rfl),
   (bot_comment_upsert ⟨none⟩ ⟨no_comment_id⟩ 7 9).2.2.1 rfl,
   (bot_comment_upsert ⟨none⟩ ⟨5⟩ 7 9).2.2.2.1 (by decide),
   (bot_comment_upsert ⟨none⟩ ⟨5⟩ 7 9).2.2.2.2 (by decide)⟩

end Linter
